import Mathlib

/-!
Verification development for the entity-command core of a configuration
management CLI (serverauditor_sshconfig). The definitions below are a
shallow embedding of `core/commands/single.py` (DetailCommand) and
`handlers/pf_rule.py` (PFRuleCommand, BindingParser), with binding
strings modelled as `List Char` and Python exceptions as an `Except`
error type.
-/

set_option autoImplicit false

namespace SSHConfig

/-- Exception taxonomy of the core, mirroring `core/exceptions.py` usage
sites: each constructor carries the message string passed at the raise
site in the source. `keyError` models a Python `KeyError` from a dict
lookup with a missing key, `assertionError` a failed `assert`. -/
inductive PyError where
  | argumentRequired (msg : String)
  | doesNotExist (msg : String)
  | invalidBinding (msg : String)
  | keyError (msg : String)
  | assertionError (msg : String)
  deriving Repr, DecidableEq

/-- Character class of Python 2 `\w` with default flags: ASCII
alphanumerics and the underscore. -/
def isPyWord (c : Char) : Bool :=
  c.isAlphanum || c = '_'

/-- Character class `[\w.]` used by the binding regexes for the
`bound_address` and `hostname` capture groups. -/
def isWordDot (c : Char) : Bool :=
  isPyWord c || c = '.'

/-- Character class `\d` used for the port capture groups. -/
def isAsciiDigit (c : Char) : Bool :=
  c.isDigit

/-- Maximal-run splitter: `spanRun p l = (takeWhile p l, dropWhile p l)`.
Greedy character-class repetition `[c]+` in an anchored regex whose other
tokens are not in the class consumes exactly such a maximal run. -/
def spanRun (p : Char → Bool) : List Char → List Char × List Char
  | [] => ([], [])
  | c :: cs =>
    if p c then
      let r := spanRun p cs
      (c :: r.1, r.2)
    else
      ([], c :: cs)

/-- Result of `matched.groupdict()` for the binding regexes: all four
named groups are present in every result; `bound_address` is `none`
exactly when its optional group did not participate in the match. -/
structure BindingDict where
  bound_address : Option (List Char)
  local_port : List Char
  hostname : List Char
  remote_port : List Char
  deriving Repr, DecidableEq

/-- Embedding of the mandatory tail `(?P<local_port>\d+):(?P<hostname>[\w.]+):(?P<remote_port>\d+)$`
of `local_pf_re`. Each `+`-repetition is over a class excluding `:`, so
greedy matching with backtracking is equivalent to taking the maximal
run and requiring the expected literal after it. -/
def matchLocalTail (cs : List Char) : Option (List Char × List Char × List Char) :=
  let s1 := spanRun isAsciiDigit cs
  if s1.1.isEmpty then none
  else
    match s1.2 with
    | ':' :: r2 =>
      let s2 := spanRun isWordDot r2
      if s2.1.isEmpty then none
      else
        match s2.2 with
        | ':' :: r4 =>
          let s3 := spanRun isAsciiDigit r4
          if s3.1.isEmpty then none
          else if s3.2.isEmpty then some (s1.1, s2.1, s3.1)
          else none
        | _ => none
    | _ => none

/-- Attempt of `local_pf_re` with the optional `((?P<bound_address>[\w.]+):)?`
group participating: a nonempty maximal `[\w.]+` run, a literal `:`, then
the mandatory tail. Shorter candidate runs for the group are ruled out
because the character after them is still in `[\w.]`, hence not `:`. -/
def localGroupMatch (cs : List Char) : Option BindingDict :=
  match spanRun isWordDot cs with
  | (ba, ':' :: rest) =>
    if ba.isEmpty then none
    else
      match matchLocalTail rest with
      | some t => some ⟨some ba, t.1, t.2.1, t.2.2⟩
      | none => none
  | _ => none

/-- Embedding of `BindingParser.local_pf_re`:
`^((?P<bound_address>[\w.]+):)?(?P<local_port>\d+):(?P<hostname>[\w.]+):(?P<remote_port>\d+)$`.
The engine first tries the optional group and, on failure of the rest of
the pattern, backtracks to omitting the group, in which case
`bound_address` does not participate and `groupdict()` maps it to `None`. -/
def localMatch (cs : List Char) : Option BindingDict :=
  match localGroupMatch cs with
  | some d => some d
  | none =>
    match matchLocalTail cs with
    | some t => some ⟨none, t.1, t.2.1, t.2.2⟩
    | none => none

/-- Embedding of the tail `(?P<local_port>\d+)(?P<hostname>)(?P<remote_port>)$`
of `dynamic_pf_re`: a nonempty digit run reaching the end of the string;
the `hostname` and `remote_port` groups match the empty string. -/
def matchDynamicTail (cs : List Char) : Option (List Char) :=
  let s1 := spanRun isAsciiDigit cs
  if s1.1.isEmpty then none
  else if s1.2.isEmpty then some s1.1
  else none

/-- Attempt of `dynamic_pf_re` with the optional bound-address group
participating, analogous to `localGroupMatch`. -/
def dynamicGroupMatch (cs : List Char) : Option BindingDict :=
  match spanRun isWordDot cs with
  | (ba, ':' :: rest) =>
    if ba.isEmpty then none
    else
      match matchDynamicTail rest with
      | some lp => some ⟨some ba, lp, [], []⟩
      | none => none
  | _ => none

/-- Embedding of `BindingParser.dynamic_pf_re`:
`^((?P<bound_address>[\w.]+):)?(?P<local_port>\d+)(?P<hostname>)(?P<remote_port>)$`. -/
def dynamicMatch (cs : List Char) : Option BindingDict :=
  match dynamicGroupMatch cs with
  | some d => some d
  | none =>
    match matchDynamicTail cs with
    | some lp => some ⟨none, lp, [], []⟩
    | none => none

namespace BindingParser

/-- Embedding of `BindingParser._parse`: match the given pattern against
the binding string; on failure raise `InvalidBinding('Invalid binding
format.')`, on success return the group dictionary. -/
def parseWith (pat : List Char → Option BindingDict) (binding_str : List Char) :
    Except PyError BindingDict :=
  match pat binding_str with
  | none => .error (.invalidBinding "Invalid binding format.")
  | some d => .ok d

/-- Embedding of `BindingParser.local` (the name `local` is a Lean
keyword): parse a local port forwarding binding string. -/
def localPf (binding_str : List Char) : Except PyError BindingDict :=
  parseWith localMatch binding_str

/-- Embedding of `BindingParser.remote`, which the source defines by the
alias `remote = local`. -/
def remote (binding_str : List Char) : Except PyError BindingDict :=
  localPf binding_str

/-- Embedding of `BindingParser.dynamic`. -/
def dynamic (binding_str : List Char) : Except PyError BindingDict :=
  parseWith dynamicMatch binding_str

end BindingParser

/-- Python `str.isdigit()` on an ASCII string: nonempty and every
character a decimal digit. -/
def pyIsDigit (s : List Char) : Bool :=
  !s.isEmpty && s.all isAsciiDigit

/-- Python `int(s)` on a string of decimal digits. -/
def natOfDigits (s : List Char) : Nat :=
  s.foldl (fun n c => 10 * n + (c.toNat - '0'.toNat)) 0

/-- Structured view of the argparse result consumed by
`DetailCommand.take_action`: the `--delete` flag and the variadic
positional `entry` list of ID-or-NAME tokens. -/
structure ParsedArgs where
  delete : Bool
  entry : List (List Char)
  deriving Repr, DecidableEq

/-- Operation dispatched by `DetailCommand.take_action`. -/
inductive Operation where
  | delete
  | update
  | create
  deriving Repr, DecidableEq

/-- Observable storage interactions of an update or delete invocation:
the single `storage.filter` query issued by `get_objects`, then one
`update_instance` or `delete_instance` call per resolved model. -/
inductive Effect (E : Type) where
  | storageFilter (ids : List Nat) (names : List (List Char))
  | updateInstance (inst : E)
  | deleteInstance (inst : E)
  deriving Repr, DecidableEq

namespace DetailCommand

/-- Embedding of the class attribute
`all_operations = {'delete', 'update', 'create'}`. -/
def all_operations : List String :=
  ["delete", "update", "create"]

/-- Embedding of `DetailCommand.__init__`, whose body (after the super
call) is `assert self.all_operations.intersection(self.allowed_operations)`:
a failed `assert` raises `AssertionError`, and a set is falsy exactly
when it is empty. -/
def init (allowed_operations : List String) : Except PyError Unit :=
  if (all_operations.filter fun op => decide (op ∈ allowed_operations)).isEmpty then
    .error (.assertionError "")
  else
    .ok ()

/-- Embedding of the property `is_allow_delete`:
`'delete' in self.allowed_operations`. -/
def is_allow_delete (allowed_operations : List String) : Bool :=
  decide ("delete" ∈ allowed_operations)

/-- Embedding of the property `is_allow_update`. -/
def is_allow_update (allowed_operations : List String) : Bool :=
  decide ("update" ∈ allowed_operations)

/-- Embedding of the property `is_allow_create`. -/
def is_allow_create (allowed_operations : List String) : Bool :=
  decide ("create" ∈ allowed_operations)

/-- Embedding of `DetailCommand.take_action`, abstracted to report which
handler the conditional chain dispatches to (`none` when the chain falls
through and no handler runs). -/
def take_action (allowed_operations : List String) (parsed_args : ParsedArgs) :
    Option Operation :=
  if is_allow_delete allowed_operations && parsed_args.delete then
    some .delete
  else
    if is_allow_create allowed_operations && parsed_args.entry.isEmpty then
      some .create
    else if is_allow_update allowed_operations && !parsed_args.entry.isEmpty then
      some .update
    else
      none

/-- Embedding of `DetailCommand.parse_ids_names`:
`ids = [int(i) for i in ids__names if i.isdigit()]; return ids, ids__names`. -/
def parse_ids_names (ids__names : List (List Char)) : List Nat × List (List Char) :=
  ((ids__names.filter pyIsDigit).map natOfDigits, ids__names)

/-- Embedding of `DetailCommand.get_objects`. The storage collaborator
is outside this core; it is abstracted as the function
`storage_filter ids names`, standing for
`self.storage.filter(self.model_class, any, id.rcontains = ids,
label.rcontains = names)`. An empty result raises `DoesNotExistException`. -/
def get_objects {E : Type} (storage_filter : List Nat → List (List Char) → List E)
    (ids__names : List (List Char)) : Except PyError (List E) :=
  let p := parse_ids_names ids__names
  let instances := storage_filter p.1 p.2
  if instances.isEmpty then
    .error (.doesNotExist "There aren\x27t any instance.")
  else
    .ok instances

/-- Embedding of `DetailCommand.update`, instrumented with the list of
storage interactions it performs: raise `ArgumentRequiredException` when
`parsed_args.entry` is empty, otherwise resolve instances through
`get_objects` and call `update_instance` on each. -/
def update {E : Type} (storage_filter : List Nat → List (List Char) → List E)
    (parsed_args : ParsedArgs) : List (Effect E) × Except PyError Unit :=
  if parsed_args.entry.isEmpty then
    ([], .error (.argumentRequired "At least one ID or NAME are required."))
  else
    let p := parse_ids_names parsed_args.entry
    let instances := storage_filter p.1 p.2
    if instances.isEmpty then
      ([Effect.storageFilter p.1 p.2], .error (.doesNotExist "There aren\x27t any instance."))
    else
      (Effect.storageFilter p.1 p.2 :: instances.map Effect.updateInstance, .ok ())

/-- Embedding of `DetailCommand.delete`, instrumented like `update`:
raise `ArgumentRequiredException` when `parsed_args.entry` is empty,
otherwise resolve instances and call `delete_instance` on each. -/
def delete {E : Type} (storage_filter : List Nat → List (List Char) → List E)
    (parsed_args : ParsedArgs) : List (Effect E) × Except PyError Unit :=
  if parsed_args.entry.isEmpty then
    ([], .error (.argumentRequired "At least one ID or NAME are required."))
  else
    let p := parse_ids_names parsed_args.entry
    let instances := storage_filter p.1 p.2
    if instances.isEmpty then
      ([Effect.storageFilter p.1 p.2], .error (.doesNotExist "There aren\x27t any instance."))
    else
      (Effect.storageFilter p.1 p.2 :: instances.map Effect.deleteInstance, .ok ())

end DetailCommand

/-- Forwarding-type discriminator set by the mutually exclusive
`--dynamic`, `--remote`, `--local` flags via `store_const` with constants
`'D'`, `'R'`, `'L'`. -/
inductive PFType where
  | D
  | L
  | R
  deriving Repr, DecidableEq

/-- Related host entity. Its model class lives outside this core; only
its identity matters here. -/
structure Host where
  id : Nat
  deriving Repr, DecidableEq

/-- Port forwarding rule record populated by
`PFRuleCommand.serialize_args`: the type discriminator, the related
host, and the four binding-derived fields set from a `BindingDict`. -/
structure PFRule where
  pf_type : Option PFType
  host : Option Host
  bound_address : Option (List Char)
  local_port : List Char
  hostname : List Char
  remote_port : List Char
  deriving Repr, DecidableEq

/-- Fresh in-memory record built by `PFRule()` on the create path,
before the serializer populates any field. -/
def newPFRule : PFRule :=
  ⟨none, none, none, [], [], []⟩

/-- Structured view of the argparse result consumed by
`PFRuleCommand.serialize_args`: `--host` (`args.host`), the type
discriminator (`args.type`, `None` when no type flag was supplied) and
`--binding` (`args.binding`, `None` when absent). -/
structure PFArgs where
  host : Option (List Char)
  type : Option PFType
  binding : Option (List Char)
  deriving Repr, DecidableEq

/-- Python truthiness of an optional string: `None` and the empty string
are falsy, any nonempty string is truthy. -/
def pyTruthy (s : Option (List Char)) : Bool :=
  match s with
  | some (_ :: _) => true
  | _ => false

/-- Python `x or y` on the optional type discriminator: the constants
`'D'`, `'L'`, `'R'` are truthy strings, `None` is falsy. -/
def pyOr (x y : Option PFType) : Option PFType :=
  match x with
  | some t => some t
  | none => y

namespace PFRuleCommand

/-- Embedding of the property `PFRuleCommand.binding_parsers`, the
mapping from type abbreviation to parsing classmethod. -/
def binding_parsers (t : PFType) : List Char → Except PyError BindingDict :=
  match t with
  | .D => BindingParser.dynamic
  | .L => BindingParser.localPf
  | .R => BindingParser.remote

/-- Embedding of `PFRuleCommand.parse_binding`:
`self.binding_parsers[pf_type](binding)`. -/
def parse_binding (pf_type : PFType) (binding : List Char) : Except PyError BindingDict :=
  binding_parsers pf_type binding

/-- Application of the loop `for key, value in binding_dict.items():
setattr(pfrule, key, value)` — the group dictionary holds exactly the
four binding fields. -/
def applyBindingDict (pfrule : PFRule) (d : BindingDict) : PFRule :=
  { pfrule with
    bound_address := d.bound_address
    local_port := d.local_port
    hostname := d.hostname
    remote_port := d.remote_port }

/-- Common tail of `PFRuleCommand.serialize_args` (after `pfrule` and
`host` are chosen): `pfrule.pf_type = args.type or pfrule.pf_type`,
`pfrule.host = host`, and when `args.binding` is truthy, parse it with
the parser selected by the (possibly just updated) `pfrule.pf_type` and
set the four resulting fields. A dict lookup `binding_parsers[None]`
raises `KeyError`. -/
def serializeCommon (pfrule : PFRule) (host : Option Host) (args : PFArgs) :
    Except PyError PFRule :=
  let pfrule1 : PFRule :=
    { pfrule with pf_type := pyOr args.type pfrule.pf_type, host := host }
  if pyTruthy args.binding then
    match pfrule1.pf_type with
    | none => .error (.keyError "None")
    | some t =>
      match parse_binding t (args.binding.getD []) with
      | .error e => .error e
      | .ok d => .ok (applyBindingDict pfrule1 d)
  else
    .ok pfrule1

/-- Embedding of `PFRuleCommand.serialize_args`. With an existing
instance, `pfrule, host = instance, instance.host`; otherwise
`pfrule, host = PFRule(), self.get_relation(Host, args.host)` (the
relation is resolved before anything else), then a missing type
discriminator raises `ArgumentRequiredException('Type is required.')`.
`get_relation` lives outside this core (a command mixin over the
get-strategy) and is abstracted as a function argument; per the spec it
resolves a host from an ID-or-label token and raises
`DoesNotExistException` when there is no match. -/
def serialize_args (get_relation : Option (List Char) → Except PyError Host)
    (args : PFArgs) (inst : Option PFRule) : Except PyError PFRule :=
  match inst with
  | some pfrule => serializeCommon pfrule pfrule.host args
  | none =>
    match get_relation args.host with
    | .error e => .error e
    | .ok h =>
      match args.type with
      | none => .error (.argumentRequired "Type is required.")
      | some _ => serializeCommon newPFRule (some h) args

end PFRuleCommand

end SSHConfig

namespace SSHConfig

/-! Helper lemmas about the maximal-run splitter and the binding
grammars. -/

/-- Splitting a list at the first character failing `p` and
reassembling the two parts gives the list back. -/
theorem spanRun_append (p : Char → Bool) (l : List Char) :
    (spanRun p l).1 ++ (spanRun p l).2 = l := by
  induction l with
  | nil => rfl
  | cons c cs ih =>
    by_cases h : p c <;> simp [spanRun, h, ih]

/-- Every character of the run taken by `spanRun` satisfies the class
predicate. -/
theorem mem_spanRun_fst (p : Char → Bool) (l : List Char) (c : Char)
    (h : c ∈ (spanRun p l).1) : p c = true := by
  induction l with
  | nil => simp [spanRun] at h
  | cons a as ih =>
    by_cases ha : p a
    · simp [spanRun, ha] at h
      rcases h with h | h
      · exact h ▸ ha
      · exact ih h
    · simp [spanRun, ha] at h

/-- Soundness of the mandatory tail of `local_pf_re`: a successful match
decomposes the input into a nonempty digit run, a colon, a nonempty
word-or-dot run, a colon, and a nonempty digit run reaching the end. -/
theorem matchLocalTail_sound (cs lp hn rp : List Char)
    (h : matchLocalTail cs = some (lp, hn, rp)) :
    cs = lp ++ ':' :: (hn ++ ':' :: rp) ∧
    lp ≠ [] ∧ (∀ c ∈ lp, isAsciiDigit c = true) ∧
    hn ≠ [] ∧ (∀ c ∈ hn, isWordDot c = true) ∧
    rp ≠ [] ∧ (∀ c ∈ rp, isAsciiDigit c = true) := by
  simp only [matchLocalTail] at h
  split at h
  · exact absurd h (by simp)
  case isFalse h1 =>
    split at h
    case h_1 r2 heq2 =>
      split at h
      · exact absurd h (by simp)
      case isFalse h2 =>
        split at h
        case h_1 r4 heq4 =>
          split at h
          · exact absurd h (by simp)
          case isFalse h3 =>
            split at h
            case isTrue h4 =>
              injection h with h'
              injection h' with e1 h''
              injection h'' with e2 e3
              have A := spanRun_append isAsciiDigit cs
              rw [heq2] at A
              have B := spanRun_append isWordDot r2
              rw [heq4] at B
              have C := spanRun_append isAsciiDigit r4
              have h4' : (spanRun isAsciiDigit r4).2 = [] := by
                simpa [List.isEmpty_iff] using h4
              rw [h4', List.append_nil] at C
              subst e1 e2 e3
              refine ⟨?_, ?_, ?_, ?_, ?_, ?_, ?_⟩
              · symm
                rw [C, B]
                exact A
              · simpa [List.isEmpty_iff] using h1
              · intro c hc
                exact mem_spanRun_fst _ _ _ hc
              · simpa [List.isEmpty_iff] using h2
              · intro c hc
                exact mem_spanRun_fst _ _ _ hc
              · simpa [List.isEmpty_iff] using h3
              · intro c hc
                exact mem_spanRun_fst _ _ _ hc
            case isFalse h4 => exact absurd h (by simp)
        case h_2 => exact absurd h (by simp)
    case h_2 => exact absurd h (by simp)

/-- Any match of `dynamic_pf_re` with the optional group participating
has empty `hostname` and `remote_port` groups. -/
theorem dynamicGroupMatch_shape (cs : List Char) (d : BindingDict)
    (h : dynamicGroupMatch cs = some d) :
    d.hostname = [] ∧ d.remote_port = [] := by
  simp only [dynamicGroupMatch] at h
  split at h
  case h_1 ba rest heq =>
    split at h
    · exact absurd h (by simp)
    case isFalse h1 =>
      split at h
      case h_1 lp hlp =>
        injection h with h'
        subst h'
        exact ⟨rfl, rfl⟩
      case h_2 => exact absurd h (by simp)
  case h_2 => exact absurd h (by simp)

/-- Any match of `dynamic_pf_re` has empty `hostname` and `remote_port`
groups. -/
theorem dynamicMatch_shape (cs : List Char) (d : BindingDict)
    (h : dynamicMatch cs = some d) :
    d.hostname = [] ∧ d.remote_port = [] := by
  simp only [dynamicMatch] at h
  split at h
  case h_1 d' hd' =>
    injection h with h'
    exact h' ▸ dynamicGroupMatch_shape cs d' hd'
  case h_2 hnone =>
    split at h
    case h_1 lp hlp =>
      injection h with h'
      subst h'
      exact ⟨rfl, rfl⟩
    case h_2 => exact absurd h (by simp)

/-- Soundness of `local_pf_re` with the optional bound-address group
participating: the input decomposes into the bound address, a colon and
the mandatory tail, with every field drawn from its character class. -/
theorem localGroupMatch_sound (cs : List Char) (d : BindingDict)
    (h : localGroupMatch cs = some d) :
    (∃ b, d.bound_address = some b ∧ b ≠ [] ∧ (∀ c ∈ b, isWordDot c = true) ∧
      cs = b ++ ':' :: (d.local_port ++ ':' :: (d.hostname ++ ':' :: d.remote_port))) ∧
    d.local_port ≠ [] ∧ (∀ c ∈ d.local_port, isAsciiDigit c = true) ∧
    d.hostname ≠ [] ∧ (∀ c ∈ d.hostname, isWordDot c = true) ∧
    d.remote_port ≠ [] ∧ (∀ c ∈ d.remote_port, isAsciiDigit c = true) := by
  simp only [localGroupMatch] at h
  split at h
  case h_1 ba rest heq =>
    split at h
    · exact absurd h (by simp)
    case isFalse h1 =>
      split at h
      case h_1 t ht =>
        injection h with h'
        subst h'
        obtain ⟨hdec, hlp, hlpc, hhn, hhnc, hrp, hrpc⟩ :=
          matchLocalTail_sound rest t.1 t.2.1 t.2.2 ht
        have hcs : ba ++ ':' :: rest = cs := by
          have A := spanRun_append isWordDot cs
          rw [heq] at A
          exact A
        have hbc : ∀ c ∈ ba, isWordDot c = true := by
          intro c hc
          apply mem_spanRun_fst isWordDot cs
          rw [heq]
          exact hc
        have hba : ba ≠ [] := by
          intro hnil
          rw [hnil] at h1
          exact h1 rfl
        refine ⟨⟨ba, rfl, hba, hbc, ?_⟩, hlp, hlpc, hhn, hhnc, hrp, hrpc⟩
        rw [← hcs, hdec]
      case h_2 => exact absurd h (by simp)
  case h_2 => exact absurd h (by simp)

/-- Soundness of `local_pf_re`: every accepted binding string
decomposes into its (optional) bound address, local port, hostname and
remote port, each nonempty and drawn from its character class. -/
theorem localMatch_sound (cs : List Char) (d : BindingDict)
    (h : localMatch cs = some d) :
    (match d.bound_address with
      | some b => b ≠ [] ∧ (∀ c ∈ b, isWordDot c = true) ∧
          cs = b ++ ':' :: (d.local_port ++ ':' :: (d.hostname ++ ':' :: d.remote_port))
      | none => cs = d.local_port ++ ':' :: (d.hostname ++ ':' :: d.remote_port)) ∧
    d.local_port ≠ [] ∧ (∀ c ∈ d.local_port, isAsciiDigit c = true) ∧
    d.hostname ≠ [] ∧ (∀ c ∈ d.hostname, isWordDot c = true) ∧
    d.remote_port ≠ [] ∧ (∀ c ∈ d.remote_port, isAsciiDigit c = true) := by
  simp only [localMatch] at h
  split at h
  case h_1 d' hd' =>
    injection h with h'
    subst h'
    obtain ⟨⟨b, hbab, hba, hbc, hdec⟩, rest⟩ := localGroupMatch_sound cs d' hd'
    rw [hbab]
    exact ⟨⟨hba, hbc, hdec⟩, rest⟩
  case h_2 hnone =>
    split at h
    case h_1 t ht =>
      injection h with h'
      subst h'
      obtain ⟨hdec, hlp, hlpc, hhn, hhnc, hrp, hrpc⟩ :=
        matchLocalTail_sound cs t.1 t.2.1 t.2.2 ht
      exact ⟨hdec, hlp, hlpc, hhn, hhnc, hrp, hrpc⟩
    case h_2 => exact absurd h (by simp)

/-! Claim theorems. -/

/-- Claim C1: `DetailCommand.take_action` dispatches in exactly this
order — if delete is allowed and the delete flag is set, the delete path
runs; otherwise if create is allowed and the entry token list is empty,
the create path runs; otherwise if update is allowed and the entry list
is nonempty, the update path runs; otherwise no operation runs. In
particular a command allowing only create, invoked with entry tokens
present, runs none of the three operations. -/
theorem take_action_dispatch_order :
    (∀ (allowed : List String) (args : ParsedArgs),
      DetailCommand.take_action allowed args =
        (if "delete" ∈ allowed ∧ args.delete = true then some Operation.delete
         else if "create" ∈ allowed ∧ args.entry = [] then some Operation.create
         else if "update" ∈ allowed ∧ args.entry ≠ [] then some Operation.update
         else none)) ∧
    (∀ (d : Bool) (t : List Char) (ts : List (List Char)),
      DetailCommand.take_action ["create"] ⟨d, t :: ts⟩ = none) := by
  constructor
  · intro allowed args
    by_cases h1 : "delete" ∈ allowed <;> by_cases h2 : args.delete = true <;>
      by_cases h3 : "create" ∈ allowed <;> by_cases h4 : args.entry = [] <;>
      by_cases h5 : "update" ∈ allowed <;>
      simp [DetailCommand.take_action, DetailCommand.is_allow_delete,
        DetailCommand.is_allow_create, DetailCommand.is_allow_update,
        h1, h2, h3, h4, h5, List.isEmpty_iff]
  · intro d t ts
    cases d <;> rfl

/-- Claim C2: every binding accepted by the dynamic parser carries all
four fields with `hostname` and `remote_port` equal to the empty string
(the `BindingDict` record always has the four fields present). The
witness instantiates this at `"127.0.0.1:9050"`, whose parse is exactly
`bound_address = "127.0.0.1"`, `local_port = "9050"`, empty hostname and
remote port. -/
theorem dynamic_result_shape (cs : List Char) (d : BindingDict)
    (h : BindingParser.dynamic cs = .ok d) :
    d.hostname = [] ∧ d.remote_port = [] := by
  simp only [BindingParser.dynamic, BindingParser.parseWith] at h
  split at h
  · exact absurd h (by simp)
  case h_2 d' hd' =>
    injection h with h'
    exact h' ▸ dynamicMatch_shape cs d' hd'

/-- Witness for claim C2 at the concrete input `"127.0.0.1:9050"`. -/
theorem dynamic_result_shape_witness :
    BindingParser.dynamic "127.0.0.1:9050".toList =
      .ok ⟨some "127.0.0.1".toList, "9050".toList, [], []⟩ ∧
    BindingDict.hostname ⟨some "127.0.0.1".toList, "9050".toList, [], []⟩ = [] ∧
    BindingDict.remote_port ⟨some "127.0.0.1".toList, "9050".toList, [], []⟩ = [] :=
  ⟨rfl,
    (dynamic_result_shape "127.0.0.1:9050".toList
      ⟨some "127.0.0.1".toList, "9050".toList, [], []⟩ rfl).1,
    (dynamic_result_shape "127.0.0.1:9050".toList
      ⟨some "127.0.0.1".toList, "9050".toList, [], []⟩ rfl).2⟩

/-- Claim C3: remote binding parsing is identical to local binding
parsing on every input (the source aliases `remote = local`); in
particular `"8080:example.com:80"` parses to no bound address, local
port 8080, hostname example.com and remote port 80 under both. -/
theorem remote_eq_local :
    (∀ cs : List Char, BindingParser.remote cs = BindingParser.localPf cs) ∧
    BindingParser.localPf "8080:example.com:80".toList =
      .ok ⟨none, "8080".toList, "example.com".toList, "80".toList⟩ ∧
    BindingParser.remote "8080:example.com:80".toList =
      .ok ⟨none, "8080".toList, "example.com".toList, "80".toList⟩ :=
  ⟨fun _ => rfl, rfl, rfl⟩

/-- Claim C4 counterexample: the error raised for an unparsable binding
does not retain the offending input — two distinct rejected inputs yield
literally the same exception value, the constant
`InvalidBinding('Invalid binding format.')`. -/
theorem parse_error_retains_nothing :
    BindingParser.localPf "8080".toList =
      .error (.invalidBinding "Invalid binding format.") ∧
    BindingParser.localPf "wrong:".toList = BindingParser.localPf "8080".toList ∧
    "wrong:".toList ≠ "8080".toList :=
  ⟨rfl, rfl, by decide⟩

/-- Claim C4 (amended): for every forwarding type, a binding string not
matching that type grammar raises `InvalidBinding` with the constant
message `Invalid binding format.` (the offending string is not included
in the error); in particular `"8080"` fails as a local binding and
succeeds as a dynamic binding. -/
theorem parse_error_is_constant :
    (∀ cs : List Char, (∃ d, BindingParser.dynamic cs = .ok d) ∨
      BindingParser.dynamic cs = .error (.invalidBinding "Invalid binding format.")) ∧
    (∀ cs : List Char, (∃ d, BindingParser.localPf cs = .ok d) ∨
      BindingParser.localPf cs = .error (.invalidBinding "Invalid binding format.")) ∧
    (∀ cs : List Char, (∃ d, BindingParser.remote cs = .ok d) ∨
      BindingParser.remote cs = .error (.invalidBinding "Invalid binding format.")) ∧
    BindingParser.localPf "8080".toList =
      .error (.invalidBinding "Invalid binding format.") ∧
    BindingParser.dynamic "8080".toList = .ok ⟨none, "8080".toList, [], []⟩ := by
  refine ⟨?_, ?_, ?_, rfl, rfl⟩ <;>
    intro cs <;>
    simp only [BindingParser.dynamic, BindingParser.localPf, BindingParser.remote,
      BindingParser.parseWith]
  · cases dynamicMatch cs <;> simp
  · cases localMatch cs <;> simp
  · cases localMatch cs <;> simp

/-- Claim C5: `get_objects` passes storage an OR-combining filter whose
ID candidates are exactly the all-digit tokens converted to integers and
whose label candidates are the full original token list; it returns the
storage result unchanged when nonempty, and raises `DoesNotExist`
exactly when the filter result is empty. -/
theorem get_objects_filter_contract {E : Type}
    (storage_filter : List Nat → List (List Char) → List E)
    (tokens : List (List Char)) :
    (∀ n : Nat, n ∈ (DetailCommand.parse_ids_names tokens).1 ↔
      ∃ t, t ∈ tokens ∧ t ≠ [] ∧ (∀ c ∈ t, c.isDigit) ∧ natOfDigits t = n) ∧
    (DetailCommand.parse_ids_names tokens).2 = tokens ∧
    (storage_filter (DetailCommand.parse_ids_names tokens).1 tokens ≠ [] →
      DetailCommand.get_objects storage_filter tokens =
        .ok (storage_filter (DetailCommand.parse_ids_names tokens).1 tokens)) ∧
    (storage_filter (DetailCommand.parse_ids_names tokens).1 tokens = [] →
      DetailCommand.get_objects storage_filter tokens =
        .error (.doesNotExist "There aren\x27t any instance.")) := by
  refine ⟨?_, rfl, ?_, ?_⟩
  · intro n
    simp [DetailCommand.parse_ids_names, List.mem_filter, pyIsDigit,
      isAsciiDigit, List.all_eq_true, List.isEmpty_iff, and_assoc]
  · intro hne
    unfold DetailCommand.get_objects
    simp only [DetailCommand.parse_ids_names] at hne ⊢
    simp [List.isEmpty_iff, hne]
  · intro heq
    unfold DetailCommand.get_objects
    simp only [DetailCommand.parse_ids_names] at heq ⊢
    simp [List.isEmpty_iff, heq]

/-- Claim C6: constructing a `DetailCommand` fails by assertion exactly
when `allowed_operations` has empty intersection with
`{delete, update, create}` (in particular for the empty set), and
succeeds exactly when the intersection is nonempty. -/
theorem init_assertion :
    ∀ allowed : List String,
      (DetailCommand.init allowed = .error (.assertionError "") ↔
        ∀ op ∈ DetailCommand.all_operations, op ∉ allowed) ∧
      (DetailCommand.init allowed = .ok () ↔
        ∃ op ∈ DetailCommand.all_operations, op ∈ allowed) ∧
      DetailCommand.init [] = .error (.assertionError "") := by
  intro allowed
  have hiff : ((DetailCommand.all_operations.filter
      fun op => decide (op ∈ allowed)).isEmpty = true) ↔
      (∀ op ∈ DetailCommand.all_operations, op ∉ allowed) := by
    simp [List.isEmpty_iff, List.filter_eq_nil_iff]
  have hex : ¬ ((DetailCommand.all_operations.filter
      fun op => decide (op ∈ allowed)).isEmpty = true) →
      ∃ op ∈ DetailCommand.all_operations, op ∈ allowed := by
    intro hc
    have h2 := mt hiff.mpr hc
    push_neg at h2
    exact h2
  refine ⟨?_, ?_, rfl⟩ <;> unfold DetailCommand.init <;>
    by_cases hc : (DetailCommand.all_operations.filter
      fun op => decide (op ∈ allowed)).isEmpty = true
  · simp [hc]
    exact hiff.mp hc
  · simp [hc]
    exact hex hc
  · simp [hc]
    exact hiff.mp hc
  · simp [hc]
    exact hex hc

/-- Claim C7: with an empty entry token list, both the update and the
delete handlers raise `ArgumentRequired` regardless of any other flag,
performing no storage query, mutation or deletion (empty effect trace). -/
theorem update_delete_require_entry {E : Type}
    (storage_filter : List Nat → List (List Char) → List E)
    (parsed_args : ParsedArgs) (h : parsed_args.entry = []) :
    DetailCommand.update storage_filter parsed_args =
      ([], .error (.argumentRequired "At least one ID or NAME are required.")) ∧
    DetailCommand.delete storage_filter parsed_args =
      ([], .error (.argumentRequired "At least one ID or NAME are required.")) := by
  unfold DetailCommand.update DetailCommand.delete
  simp [h]

/-- Witness for claim C7: a concrete invocation with the delete flag set
but no entry tokens. -/
theorem update_delete_require_entry_witness :
    DetailCommand.update (fun _ _ => ([] : List Nat)) ⟨true, []⟩ =
      ([], .error (.argumentRequired "At least one ID or NAME are required.")) ∧
    DetailCommand.delete (fun _ _ => ([] : List Nat)) ⟨true, []⟩ =
      ([], .error (.argumentRequired "At least one ID or NAME are required.")) :=
  update_delete_require_entry (fun _ _ => ([] : List Nat)) ⟨true, []⟩ rfl

/-- Claim C8 counterexample: on the create path with no type flag, the
host relation is resolved first, so when relation resolution fails the
raised error is its `DoesNotExist`, not `ArgumentRequired` as the claim
states. -/
theorem create_propagates_relation_error :
    PFRuleCommand.serialize_args (fun _ => .error (.doesNotExist "Relation not found."))
      ⟨some "prod".toList, none, none⟩ none =
      .error (.doesNotExist "Relation not found.") ∧
    (Except.error (PyError.doesNotExist "Relation not found.") :
        Except PyError PFRule) ≠
      .error (.argumentRequired "Type is required.") :=
  ⟨rfl, by simp⟩

/-- Claim C8 (amended): on the create path, once host relation
resolution succeeds, a missing type discriminator makes serialization
raise `ArgumentRequired` and no rule is produced. -/
theorem create_requires_type (get_relation : Option (List Char) → Except PyError Host)
    (args : PFArgs) (h : Host) (hg : get_relation args.host = .ok h)
    (ht : args.type = none) :
    PFRuleCommand.serialize_args get_relation args none =
      .error (.argumentRequired "Type is required.") := by
  simp only [PFRuleCommand.serialize_args, hg, ht]

/-- Witness for claim C8: a concrete create invocation whose host
resolves and whose type flag is absent. -/
theorem create_requires_type_witness :
    PFRuleCommand.serialize_args (fun _ => .ok ⟨1⟩) ⟨none, none, none⟩ none =
      .error (.argumentRequired "Type is required.") :=
  create_requires_type (fun _ => .ok ⟨1⟩) ⟨none, none, none⟩ ⟨1⟩ rfl rfl

/-- Claim C9 counterexample: a local binding whose hostname contains an
underscore — a character that is neither alphanumeric nor a dot — is
accepted, refuting the claimed rejection. -/
theorem local_accepts_underscore :
    BindingParser.localPf "80:a_b:90".toList =
      .ok ⟨none, "80".toList, "a_b".toList, "90".toList⟩ ∧
    '_' ∈ "a_b".toList ∧ '_'.isAlphanum = false ∧ '_' ≠ '.' :=
  ⟨rfl, by decide, by decide, by decide⟩

/-- Claim C9 (amended): for local and remote bindings (which agree), the
`bound_address` and `hostname` positions accept exactly the characters
of Python `\w` plus the dot — ASCII alphanumerics, underscore, and dot —
while `local_port` and `remote_port` accept only decimal digits; every
accepted string decomposes into such fields, so a string with any other
character in those positions cannot parse. -/
theorem local_remote_field_classes (cs : List Char) (d : BindingDict)
    (h : BindingParser.localPf cs = .ok d) :
    BindingParser.remote cs = .ok d ∧
    (match d.bound_address with
      | some b => b ≠ [] ∧ (∀ c ∈ b, (c.isAlphanum || c = '_' || c = '.') = true) ∧
          cs = b ++ ':' :: (d.local_port ++ ':' :: (d.hostname ++ ':' :: d.remote_port))
      | none => cs = d.local_port ++ ':' :: (d.hostname ++ ':' :: d.remote_port)) ∧
    d.local_port ≠ [] ∧ (∀ c ∈ d.local_port, c.isDigit = true) ∧
    d.hostname ≠ [] ∧ (∀ c ∈ d.hostname, (c.isAlphanum || c = '_' || c = '.') = true) ∧
    d.remote_port ≠ [] ∧ (∀ c ∈ d.remote_port, c.isDigit = true) := by
  have hm : localMatch cs = some d := by
    simp only [BindingParser.localPf, BindingParser.parseWith] at h
    split at h
    · exact absurd h (by simp)
    case h_2 d' hd' =>
      injection h with h'
      subst h'
      exact hd'
  have hs := localMatch_sound cs d hm
  exact ⟨h, by simpa [isWordDot, isPyWord, isAsciiDigit] using hs⟩

/-- Witness for claim C9 at the concrete input `"8080:example.com:80"`. -/
theorem local_remote_field_classes_witness :
    BindingParser.localPf "8080:example.com:80".toList =
      .ok ⟨none, "8080".toList, "example.com".toList, "80".toList⟩ ∧
    BindingParser.remote "8080:example.com:80".toList =
      .ok ⟨none, "8080".toList, "example.com".toList, "80".toList⟩ ∧
    (∀ c ∈ "example.com".toList, (c.isAlphanum || c = '_' || c = '.') = true) :=
  ⟨rfl,
    (local_remote_field_classes "8080:example.com:80".toList
      ⟨none, "8080".toList, "example.com".toList, "80".toList⟩ rfl).1,
    (local_remote_field_classes "8080:example.com:80".toList
      ⟨none, "8080".toList, "example.com".toList, "80".toList⟩ rfl).2.2.2.2.2.1⟩

/-- Claim C10: on the update path of `serialize_args` (existing instance
given), a successful result keeps the instance host (the relation
resolver is never consulted — the result does not depend on it at all),
keeps the previous `pf_type` when the type flag is unset, and leaves all
four binding-derived fields unchanged when the binding argument is
absent or empty. -/
theorem serialize_args_update_frame
    (get_relation : Option (List Char) → Except PyError Host)
    (args : PFArgs) (inst r : PFRule)
    (h : PFRuleCommand.serialize_args get_relation args (some inst) = .ok r) :
    r.host = inst.host ∧
    (∀ g2 : Option (List Char) → Except PyError Host,
      PFRuleCommand.serialize_args g2 args (some inst) =
        PFRuleCommand.serialize_args get_relation args (some inst)) ∧
    (args.type = none → r.pf_type = inst.pf_type) ∧
    (pyTruthy args.binding = false →
      r.bound_address = inst.bound_address ∧ r.local_port = inst.local_port ∧
      r.hostname = inst.hostname ∧ r.remote_port = inst.remote_port) := by
  simp only [PFRuleCommand.serialize_args] at h ⊢
  simp only [PFRuleCommand.serializeCommon] at h
  split at h
  case isTrue hb =>
    split at h
    · exact absurd h (by simp)
    case h_2 t htp =>
      split at h
      · exact absurd h (by simp)
      case h_2 bd hbd =>
        injection h with h'
        subst h'
        refine ⟨rfl, fun _ => trivial, ?_, ?_⟩
        · intro htype
          simp [PFRuleCommand.applyBindingDict, pyOr, htype]
        · intro hfalse
          rw [hfalse] at hb
          cases hb
  case isFalse hb =>
    injection h with h'
    subst h'
    refine ⟨rfl, fun _ => trivial, ?_, fun _ => ⟨rfl, rfl, rfl, rfl⟩⟩
    intro htype
    simp [pyOr, htype]

/-- Witness for claim C10: a concrete update of an existing rule with no
type flag and no binding argument leaves every field unchanged. -/
theorem serialize_args_update_frame_witness :
    PFRuleCommand.serialize_args (fun _ => .ok ⟨0⟩) ⟨none, none, none⟩
        (some ⟨some PFType.L, some ⟨7⟩, none, [], [], []⟩) =
      .ok ⟨some PFType.L, some ⟨7⟩, none, [], [], []⟩ ∧
    (some (⟨7⟩ : Host) = some (⟨7⟩ : Host)) ∧
    (∀ g2 : Option (List Char) → Except PyError Host,
      PFRuleCommand.serialize_args g2 ⟨none, none, none⟩
          (some ⟨some PFType.L, some ⟨7⟩, none, [], [], []⟩) =
        PFRuleCommand.serialize_args (fun _ => Except.ok ⟨0⟩) ⟨none, none, none⟩
          (some ⟨some PFType.L, some ⟨7⟩, none, [], [], []⟩)) ∧
    ((none : Option PFType) = none →
      (some PFType.L : Option PFType) = some PFType.L) ∧
    (pyTruthy none = false →
      (none : Option (List Char)) = none ∧ ([] : List Char) = [] ∧
      ([] : List Char) = [] ∧ ([] : List Char) = []) :=
  ⟨rfl,
    (serialize_args_update_frame (fun _ => Except.ok ⟨0⟩) ⟨none, none, none⟩
      ⟨some PFType.L, some ⟨7⟩, none, [], [], []⟩
      ⟨some PFType.L, some ⟨7⟩, none, [], [], []⟩ rfl).1,
    (serialize_args_update_frame (fun _ => Except.ok ⟨0⟩) ⟨none, none, none⟩
      ⟨some PFType.L, some ⟨7⟩, none, [], [], []⟩
      ⟨some PFType.L, some ⟨7⟩, none, [], [], []⟩ rfl).2.1,
    (serialize_args_update_frame (fun _ => Except.ok ⟨0⟩) ⟨none, none, none⟩
      ⟨some PFType.L, some ⟨7⟩, none, [], [], []⟩
      ⟨some PFType.L, some ⟨7⟩, none, [], [], []⟩ rfl).2.2.1,
    (serialize_args_update_frame (fun _ => Except.ok ⟨0⟩) ⟨none, none, none⟩
      ⟨some PFType.L, some ⟨7⟩, none, [], [], []⟩
      ⟨some PFType.L, some ⟨7⟩, none, [], [], []⟩ rfl).2.2.2⟩

end SSHConfig
